import Mathlib

/-!
Verification development for the FEATMY-V2 client application.

We shallowly embed the two core modules of the repository:

* `src/js/router.js` — the `Router` class: route tables, pattern matching
  (`matchRoute`, `getRequiredType`), the guard logic of `_navigate`, and the
  navigation request queue of `navigate`.
* `src/js/auth.js` — the `AuthManager` class: `login`, `createStudentAccount`,
  `checkPendingStudent`, `activateStudentAccount`, over an explicit model of
  the identity provider (Firebase Auth) and the document store (Firestore).

JavaScript strings are modeled by Lean `String`; the handful of string
primitives the code uses (`split('/')`, `startsWith`, `includes`, `slice(1)`,
`toLowerCase`, `trim`, the regex replace `[^a-z0-9] -> '_'`) are given
executable structural definitions below so that concrete runs reduce in the
kernel.  Server timestamps (`createdAt`, `activatedAt`) are opaque values
irrelevant to every claim and are omitted from the record model.
-/

namespace Featmy

/-! ## String helpers (models of the JS string primitives used by the code) -/

/-- `s.startsWith(c)` for a single-character prefix: true iff the first
character of `s` is `c`. -/
def startsWithChar (c : Char) (s : String) : Bool :=
  match s.data with
  | [] => false
  | c0 :: _ => c0 = c

/-- `String.prototype.split(sep)` for a single-character separator, on the
character list.  `splitOnChar c "" = [""]`, `splitOnChar '/' "/a" = ["", "a"]`,
exactly as in JavaScript. -/
def splitOnChar (sep : Char) : List Char → List (List Char)
  | [] => [[]]
  | c :: rest =>
    let r := splitOnChar sep rest
    if c = sep then [] :: r
    else
      match r with
      | g :: gs => (c :: g) :: gs
      | [] => [[c]]

/-- `path.split('/')` from `router.js`. -/
def splitPath (s : String) : List String :=
  (splitOnChar '/' s.data).map String.mk

/-- `s.includes(c)` for a single character (used as `route.includes(':')`). -/
def containsChar (c : Char) (s : String) : Bool :=
  s.data.contains c

/-- `s.slice(1)` (drop the first UTF-16 unit; all route strings are ASCII). -/
def dropFirstChar (s : String) : String :=
  String.mk (s.data.drop 1)

/-- `s.toLowerCase()` (the code only ever feeds it ASCII email addresses). -/
def lowerAscii (s : String) : String :=
  String.mk (s.data.map Char.toLower)

/-- Whitespace stripped by `String.prototype.trim()` (the usual ASCII cases). -/
def isJsSpace (c : Char) : Bool :=
  c = ' ' || c = '\t' || c = '\n' || c = '\r'

/-- `s.trim()`. -/
def jsTrim (s : String) : String :=
  String.mk (((s.data.dropWhile isJsSpace).reverse.dropWhile isJsSpace).reverse)

/-- One character of the regex replace `replace(/[^a-z0-9]/g, '_')`. -/
def sanitizeEmailChar (c : Char) : Char :=
  if (97 ≤ c.toNat && c.toNat ≤ 122) || (48 ≤ c.toNat && c.toNat ≤ 57) then c else '_'

/-- `email.toLowerCase().trim()` — the normalized email used throughout
`auth.js`. -/
def normEmail (email : String) : String :=
  jsTrim (lowerAscii email)

/-- `normalizedEmail.replace(/[^a-z0-9]/g, '_')` applied to an already
normalized email. -/
def emailKeyFor (normalizedEmail : String) : String :=
  String.mk (normalizedEmail.data.map sanitizeEmailChar)

/-- The pending-activation index key derived from a raw email address
(normalize, then sanitize), as computed in `checkPendingStudent`,
`createStudentAccount` and `activateStudentAccount`. -/
def emailKeyOf (email : String) : String :=
  emailKeyFor (normEmail email)

/-! ## Router: route tables (`router.js` constructor) -/

/-- `this.routes` — insertion order of the object literal is preserved
(string keys of a JS object iterate in insertion order). -/
def routes : List (String × String) :=
  [("/", "pages/login.html"),
   ("/login", "pages/login.html"),
   ("/signup", "pages/signup.html"),
   ("/primeiro-acesso", "pages/primeiro-acesso.html"),
   ("/personal/dashboard", "pages/personal/dashboard.html"),
   ("/personal/exercises", "pages/personal/exercises.html"),
   ("/personal/create-workout", "pages/personal/create-workout.html"),
   ("/personal/student/:id", "pages/personal/student-details.html"),
   ("/personal/feedbacks", "pages/personal/feedbacks.html"),
   ("/student/dashboard", "pages/student/dashboard.html"),
   ("/student/view-workout", "pages/student/view-workout.html"),
   ("/personal/volume/:id", "pages/personal/volume-analysis.html")]

/-- `this.protectedRoutes`. -/
def protectedRoutes : List (String × String) :=
  [("/personal/dashboard", "personal"),
   ("/personal/exercises", "personal"),
   ("/personal/create-workout", "personal"),
   ("/personal/student/:id", "personal"),
   ("/personal/feedbacks", "personal"),
   ("/student/dashboard", "student"),
   ("/personal/volume/:id", "personal"),
   ("/student/view-workout", "student")]

/-- `this.publicRoutes`. -/
def publicRoutes : List String :=
  ["/login", "/signup", "/", "/primeiro-acesso"]

/-! ## Router.matchRoute -/

/-- Result of `matchRoute`: the matched route pattern and the extracted
parameter map (`{ route, params }`). -/
structure MatchResult where
  route : String
  params : List (String × String)
deriving DecidableEq

/-- The inner loop of `matchRoute`: walk route segments and path segments in
lockstep; a segment starting with `:` binds a parameter, any other segment
must be literally equal; unequal lengths never match (the JS code checks
`routeParts.length !== pathParts.length` up front, which coincides with the
`none` of the mismatched-length cases here). -/
def matchSegs : List String → List String → Option (List (String × String))
  | [], [] => some []
  | r :: rs, p :: ps =>
    if startsWithChar ':' r then
      (matchSegs rs ps).map (fun ps' => (dropFirstChar r, p) :: ps')
    else if r = p then matchSegs rs ps
    else none
  | _, _ => none

/-- The `for … of Object.entries(this.routes)` loop of `matchRoute`:
skip entries without a `:` and return the first pattern match. -/
def findParamRoute : List (String × String) → String → Option MatchResult
  | [], _ => none
  | (route, _) :: rest, path =>
    if containsChar ':' route then
      match matchSegs (splitPath route) (splitPath path) with
      | some ps => some ⟨route, ps⟩
      | none => findParamRoute rest path
    else findParamRoute rest path

/-- `Router.matchRoute(path)`: exact table hit first (with empty params),
then the parameter-pattern scan. -/
def matchRoute (path : String) : Option MatchResult :=
  if (routes.lookup path).isSome then some ⟨path, []⟩
  else findParamRoute routes path

/-! ## Router.getRequiredType -/

/-- Loose segment match used by `getRequiredType` (parameters match anything,
no extraction). -/
def segsMatchLoose : List String → List String → Bool
  | [], [] => true
  | r :: rs, p :: ps => (startsWithChar ':' r || r = p) && segsMatchLoose rs ps
  | _, _ => false

/-- The pattern scan of `getRequiredType`. -/
def findParamType : List (String × String) → String → Option String
  | [], _ => none
  | (route, ty) :: rest, path =>
    if containsChar ':' route && segsMatchLoose (splitPath route) (splitPath path) then
      some ty
    else findParamType rest path

/-- `Router.getRequiredType(path)`: exact hit in `protectedRoutes` first,
then the parameter-pattern scan; `none` for public/unknown paths. -/
def getRequiredType (path : String) : Option String :=
  match protectedRoutes.lookup path with
  | some ty => some ty
  | none => findParamType protectedRoutes path

/-! ## Router._navigate — guard decision

`_navigate` (router.js lines 167–238) normalizes the path, then applies the
protected-route guard, the public-route guard, and finally loads the page
when `currentPath` differs from the target.  We model its observable decision
as a `NavOutcome`; `redirect t` is `window.location.hash = '#' + t` followed
by return, `load p` is a `loadPage(p)` call that also sets `currentPath := p`,
and `stay p` is the fall-through when `currentPath` already equals `p`
(no page load). -/

inductive NavOutcome where
  | redirect (target : String)
  | load (path : String)
  | stay (path : String)
deriving DecidableEq

/-- `if (!path.startsWith('/')) path = '/' + path`. -/
def normalizePath (p : String) : String :=
  if startsWithChar '/' p then p else "/" ++ p

/-- The redirect target computed in both guard branches:
`currentUserType === 'personal' ? '/personal/dashboard' : '/student/dashboard'`. -/
def dashboardFor (ut : Option String) : String :=
  if ut = some "personal" then "/personal/dashboard" else "/student/dashboard"

/-- JS truthiness of `currentUserType` (a string or `null`). -/
def truthyType : Option String → Bool
  | none => false
  | some s => s != ""

/-- Final phase of `_navigate`: `if (this.currentPath !== path) loadPage(path)`. -/
def loadOrStay (cp : Option String) (path : String) : NavOutcome :=
  if cp ≠ some path then .load path else .stay path

/-- The public-route guard (router.js lines 215–226) followed by the load
phase: redirect an authenticated user with a truthy role off public pages,
unless the target already is their dashboard. -/
def publicThenLoad (isAuth : Bool) (ut : Option String) (cp : Option String)
    (path : String) : NavOutcome :=
  if publicRoutes.contains path && isAuth && truthyType ut then
    let r := dashboardFor ut
    if path ≠ r then .redirect r else loadOrStay cp path
  else loadOrStay cp path

/-- The full `_navigate` guard decision (router.js lines 173–231), as a pure
function of the session state (`isAuth`, `ut`), the router's `currentPath`
(`cp`) and the requested path. -/
def navDecision (isAuth : Bool) (ut : Option String) (cp : Option String)
    (rawPath : String) : NavOutcome :=
  let path := normalizePath rawPath
  match getRequiredType path with
  | some req =>
    if !isAuth then .redirect "/login"
    else if ut ≠ some req then
      let r := dashboardFor ut
      if path ≠ r then .redirect r else publicThenLoad isAuth ut cp path
    else publicThenLoad isAuth ut cp path
  | none => publicThenLoad isAuth ut cp path

/-! ## Router.navigate — request queue

`navigate` (router.js lines 146–165) is the public entry point.  Its
synchronous prefix (executed atomically — JavaScript is single-threaded and
this prefix contains no `await`) is:

1. drop the request if `isNavigating && currentPath === path`;
2. append the path to `navigationQueue` unless the queue's tail already
   equals it;
3. return if `isNavigating` (an already-running drain loop will pick the
   request up); otherwise drain the queue, popping the head and running
   `_navigate` on it to completion before popping the next.

Interleaving model: other `navigate` calls (from event handlers — browser
macrotasks) can only run while `_navigate` is suspended at a genuine
asynchronous operation, i.e. during the page-load phase, which is *before*
`currentPath` is updated (router.js line 231 runs after `loadPage` resolves,
and from there to the next queue pop there are only microtask boundaries).
`processOne` therefore folds the batch of arriving requests over the state
*before* applying the navigation's effect on `currentPath`. -/

/-- The mutable router state read and written by `navigate` / `_navigate`. -/
structure RState where
  isNavigating : Bool
  currentPath : Option String
  queue : List String
deriving DecidableEq

/-- The synchronous prefix of `navigate(path)` (steps 1–2 above). -/
def enqueueStep (s : RState) (path : String) : RState :=
  if s.isNavigating = true ∧ s.currentPath = some path then s
  else if s.queue = [] ∨ s.queue.getLast? ≠ some path then
    { s with queue := s.queue ++ [path] }
  else s

/-- Effect of one completed `_navigate` on `currentPath`: updated only when
the decision was an actual page load. -/
def navStep (isAuth : Bool) (ut : Option String) (cp : Option String)
    (path : String) : Option String :=
  match navDecision isAuth ut cp path with
  | .load np => some np
  | _ => cp

/-- One `_navigate` execution for `path` with `reqs` the navigation requests
arriving while its page load is in flight: the arrivals observe
`isNavigating = true` and the not-yet-updated `currentPath`; afterwards the
load completes and the busy flag clears. -/
def processOne (isAuth : Bool) (ut : Option String) (s : RState) (path : String)
    (reqs : List String) : RState :=
  let s1 := reqs.foldl enqueueStep { s with isNavigating := true }
  { s1 with
    currentPath := navStep isAuth ut s.currentPath path
    isNavigating := false }

/-- Draining the rest of the queue when no further requests arrive: each
popped path is processed to completion (threading `currentPath`) before the
next is popped.  Returns the paths `_navigate` is invoked on, in order. -/
def drainQuietList (isAuth : Bool) (ut : Option String) :
    Option String → List String → List String
  | _, [] => []
  | cp, p :: rest => p :: drainQuietList isAuth ut (navStep isAuth ut cp p) rest

/-- The drain loop of `navigate`, with `arrivals` the successive batches of
requests arriving during the successive in-flight navigations (an empty
suffix of batches means no more requests arrive).  Returns the FIFO order in
which queued paths are handed to `_navigate`. -/
def drainWith (isAuth : Bool) (ut : Option String) :
    RState → List (List String) → List String
  | s, [] => drainQuietList isAuth ut s.currentPath s.queue
  | s, reqs :: arr =>
    match s.queue with
    | [] => []
    | p :: rest =>
      p :: drainWith isAuth ut (processOne isAuth ut { s with queue := rest } p reqs) arr

/-- A full `navigate(path)` call made while the router is idle, with
`arrivals` the request batches arriving during the in-flight processings it
triggers: returns the sequence of paths `_navigate` executes. -/
def navigateRun (isAuth : Bool) (ut : Option String) (s : RState) (path : String)
    (arrivals : List (List String)) : List String :=
  let s0 := enqueueStep s path
  if s.isNavigating then [] else drainWith isAuth ut s0 arrivals

/-! ## AuthManager: identity provider and document store model

`auth` is the Firebase Auth handle, modeled as an email-keyed account list
plus the currently signed-in uid; `db` is the Firestore handle, modeled as
association lists for the two collections the claims touch (`users`,
`pendingActivations`).  `set` overwrites-or-inserts, `delete` removes,
`update` requires the document to exist (Firestore's `update` rejects on a
missing document). -/

/-- Provider error codes relevant to the modeled flows. -/
inductive AuthErr where
  | emailInUse
  | userNotFound
  | wrongPassword
deriving DecidableEq

/-- An identity-provider account. -/
structure AuthAccount where
  uid : String
  password : String
deriving DecidableEq

/-- The identity-provider state (Firebase Auth). -/
structure IdProvider where
  accounts : List (String × AuthAccount)
  currentUid : Option String
deriving DecidableEq

/-- `auth.createUserWithEmailAndPassword(email, password)`; the fresh uid the
provider would generate is passed in explicitly. -/
def createUser (ap : IdProvider) (email password freshUid : String) :
    IdProvider × Except AuthErr String :=
  match ap.accounts.lookup email with
  | some _ => (ap, .error .emailInUse)
  | none =>
    ({ accounts := ap.accounts ++ [(email, ⟨freshUid, password⟩)],
       currentUid := some freshUid },
     .ok freshUid)

/-- `auth.signInWithEmailAndPassword(email, password)`. -/
def signIn (ap : IdProvider) (email password : String) :
    IdProvider × Except AuthErr String :=
  match ap.accounts.lookup email with
  | none => (ap, .error .userNotFound)
  | some acct =>
    if acct.password = password then
      ({ ap with currentUid := some acct.uid }, .ok acct.uid)
    else (ap, .error .wrongPassword)

/-- `auth.signOut()`. -/
def signOutIdp (ap : IdProvider) : IdProvider :=
  { ap with currentUid := none }

/-- The subset of `_translateError` (auth.js lines 410–422) reachable from
the modeled provider errors. -/
def translateAuthErr : AuthErr → String
  | .emailInUse => "Este e-mail já está cadastrado"
  | .userNotFound => "Usuário não encontrado"
  | .wrongPassword => "Senha incorreta"

/-- A document of the `users` collection, with the fields the code reads or
writes (opaque server timestamps omitted). -/
structure UserDoc where
  uid : String
  name : String
  email : String
  userType : String
  status : String
  personalId : Option String := none
  authUid : Option String := none
  students : List String := []
  assignedWorkouts : List String := []
  createdBy : Option String := none
deriving DecidableEq

/-- A document of the `pendingActivations` collection. -/
structure IndexDoc where
  studentDocId : String
  status : String
deriving DecidableEq

/-- `doc(k).set(v)`: overwrite in place or insert. -/
def setKey {α : Type} : List (String × α) → String → α → List (String × α)
  | [], k, v => [(k, v)]
  | (k', v') :: rest, k, v =>
    if k' = k then (k, v) :: rest else (k', v') :: setKey rest k v

/-- `doc(k).delete()`. -/
def delKey {α : Type} (l : List (String × α)) (k : String) : List (String × α) :=
  l.filter (fun kv => kv.1 ≠ k)

/-- `firebase.firestore.FieldValue.arrayUnion(x)` on a string array field. -/
def arrayUnion (l : List String) (x : String) : List String :=
  if l.contains x then l else l ++ [x]

/-- `firebase.firestore.FieldValue.arrayRemove(x)`. -/
def arrayRemove (l : List String) (x : String) : List String :=
  l.filter (fun y => y ≠ x)

/-- The in-memory session fields of `AuthManager`
(`currentUser`, `currentUserType`). -/
structure Session where
  currentUser : Option String
  currentUserType : Option String
deriving DecidableEq

/-- The complete world the auth operations act on. -/
structure World where
  idp : IdProvider
  users : List (String × UserDoc)
  pendingActivations : List (String × IndexDoc)
  session : Session
deriving DecidableEq

/-! ## AuthManager operations -/

/-- Result of `login`. -/
inductive LoginResult where
  | ok (uid userType : String)
  | fail (error : String)
deriving DecidableEq

/-- `AuthManager.login(email, password)` (auth.js lines 365–387). -/
def login (w : World) (email password : String) : World × LoginResult :=
  match signIn w.idp email password with
  | (idp1, .error e) => ({ w with idp := idp1 }, .fail (translateAuthErr e))
  | (idp1, .ok uid) =>
    let w1 : World := { w with idp := idp1 }
    match w1.users.lookup uid with
    | none => (w1, .fail "Dados do usuário não encontrados")
    | some data =>
      if data.userType = "student" ∧ data.status = "inactive" then
        ({ w1 with idp := signOutIdp w1.idp },
         .fail "Sua conta foi desativada. Entre em contato com seu personal trainer.")
      else
        ({ w1 with session := ⟨some uid, some data.userType⟩ },
         .ok uid data.userType)

/-- Result of `createStudentAccount`. -/
inductive CreateResult where
  | ok (studentDocId : String)
  | fail (error : String)
deriving DecidableEq

/-- `AuthManager.createStudentAccount(name, email)` (auth.js lines 116–162);
the fresh Firestore document id is passed in explicitly.  The
`students`-array update on the trainer's document is a Firestore `update`,
which rejects when the document is missing — by then the student document
has already been created (no transaction), which the partial-failure branch
reflects. -/
def createStudentAccount (w : World) (name email newDocId : String) :
    World × CreateResult :=
  match w.session.currentUser with
  | none => (w, .fail "Não autenticado")
  | some personalUid =>
    if w.session.currentUserType ≠ some "personal" then
      (w, .fail "Apenas personals podem criar alunos")
    else if name = "" ∨ email = "" then
      (w, .fail "Nome e e-mail são obrigatórios")
    else
      let normalizedEmail := normEmail email
      if w.users.any (fun kv => kv.2.email = normalizedEmail) then
        (w, .fail "Este e-mail já está cadastrado")
      else
        let doc : UserDoc :=
          { uid := newDocId, name := jsTrim name, email := normalizedEmail,
            userType := "student", status := "pending",
            personalId := some personalUid, authUid := none,
            students := [], assignedWorkouts := [],
            createdBy := some personalUid }
        let users1 := setKey w.users newDocId doc
        match users1.lookup personalUid with
        | none => ({ w with users := users1 }, .fail "No document to update")
        | some pdoc =>
          let users2 :=
            setKey users1 personalUid
              { pdoc with students := arrayUnion pdoc.students newDocId }
          let pa :=
            setKey w.pendingActivations (emailKeyFor normalizedEmail)
              ⟨newDocId, "pending"⟩
          ({ w with users := users2, pendingActivations := pa }, .ok newDocId)

/-- Result of `checkPendingStudent` (the error catch-branch is unreachable in
the model, where store reads never throw). -/
inductive CheckResult where
  | pendingRes (studentDocId name : String) (personalId : Option String)
  | alreadyActive
  | noIndex
deriving DecidableEq

/-- `AuthManager.checkPendingStudent(email)` (auth.js lines 222–265). -/
def checkPendingStudent (w : World) (email : String) : CheckResult :=
  let emailKey := emailKeyOf email
  match w.pendingActivations.lookup emailKey with
  | none => .noIndex
  | some idx =>
    if idx.status ≠ "pending" then .alreadyActive
    else
      match w.users.lookup idx.studentDocId with
      | none => .alreadyActive
      | some sd =>
        if sd.status ≠ "pending" then .alreadyActive
        else .pendingRes idx.studentDocId sd.name sd.personalId

/-- Result of `activateStudentAccount`. -/
inductive ActResult where
  | ok (uid : String)
  | fail (error : String)
deriving DecidableEq

/-- Steps 4–7 of `activateStudentAccount` (auth.js lines 315–357): write the
final profile record keyed by the identity's uid, best-effort delete the
provisional record, best-effort swap the provisional id for the uid in the
owning trainer's `students` array, best-effort delete the
pending-activation index, then adopt the session. -/
def activateFinish (w : World) (studentData : UserDoc)
    (normalizedEmail uid studentDocId : String) : World × ActResult :=
  let finalDoc := { studentData with uid := uid, authUid := some uid, status := "active" }
  let users1 := setKey w.users uid finalDoc
  let users2 := delKey users1 studentDocId
  let users3 :=
    match studentData.personalId with
    | none => users2
    | some pid =>
      match users2.lookup pid with
      | none => users2
      | some pdoc =>
        let l1 := setKey users2 pid
          { pdoc with students := arrayRemove pdoc.students studentDocId }
        match l1.lookup pid with
        | none => l1
        | some pdoc2 =>
          setKey l1 pid { pdoc2 with students := arrayUnion pdoc2.students uid }
  let pa := delKey w.pendingActivations (emailKeyFor normalizedEmail)
  ({ w with users := users3, pendingActivations := pa,
            session := ⟨some uid, some "student"⟩ },
   .ok uid)

/-- `AuthManager.activateStudentAccount(email, password, studentDocId)`
(auth.js lines 279–361); the fresh auth uid the provider would mint is
passed in explicitly (unused when the email is already registered).
Step 1 reads the provisional record and *throws when it is absent*;
step 2 creates the identity or falls back to sign-in on
`auth/email-already-in-use`; step 3 is the already-active short-circuit. -/
def activateStudentAccount (w : World) (email password studentDocId freshUid : String) :
    World × ActResult :=
  if password.length < 6 then
    (w, .fail "A senha deve ter pelo menos 6 caracteres")
  else
    let normalizedEmail := normEmail email
    match w.users.lookup studentDocId with
    | none =>
      (w, .fail "Dados do aluno não encontrados. Entre em contato com seu personal trainer.")
    | some studentData =>
      let step2 : IdProvider × Except AuthErr String :=
        match createUser w.idp normalizedEmail password freshUid with
        | (_, .error .emailInUse) => signIn w.idp normalizedEmail password
        | r => r
      match step2 with
      | (idp1, .error e) => ({ w with idp := idp1 }, .fail (translateAuthErr e))
      | (idp1, .ok uid) =>
        let w1 : World := { w with idp := idp1 }
        match w1.users.lookup uid with
        | some existing =>
          if existing.status = "active" then
            ({ w1 with session := ⟨some uid, some "student"⟩ }, .ok uid)
          else activateFinish w1 studentData normalizedEmail uid studentDocId
        | none => activateFinish w1 studentData normalizedEmail uid studentDocId

/-! ## Concrete scenario worlds

A personal trainer `p1` (logged in) registers the student `Aluno` under
`aluno@example.com`; the student then activates the account with password
`secret1`, the provider minting auth uid `u1`.  These worlds are reused by
the account-lifecycle theorems below. -/

/-- The trainer's profile record. -/
def trainerDoc : UserDoc :=
  { uid := "p1", name := "PT", email := "pt@example.com",
    userType := "personal", status := "active" }

/-- World with the trainer registered and signed in, before any student
exists. -/
def baseWorld : World :=
  { idp := ⟨[("pt@example.com", ⟨"p1", "ptpass"⟩)], some "p1"⟩,
    users := [("p1", trainerDoc)],
    pendingActivations := [],
    session := ⟨some "p1", some "personal"⟩ }

/-- World after `createStudentAccount('Aluno', 'aluno@example.com')`
allocated document id `s1`. -/
def worldAfterCreate : World :=
  (createStudentAccount baseWorld "Aluno" "aluno@example.com" "s1").1

/-- World after a fully completed
`activateStudentAccount('aluno@example.com', 'secret1', 's1')` that minted
auth uid `u1`. -/
def worldAfterActivate : World :=
  (activateStudentAccount worldAfterCreate "aluno@example.com" "secret1" "s1" "u1").1

/-- An activated-then-deactivated student profile, for the `login` claim. -/
def inactiveStudentDoc : UserDoc :=
  { uid := "u1", name := "Aluno", email := "aluno@example.com",
    userType := "student", status := "inactive",
    personalId := some "p1", authUid := some "u1" }

/-- World holding the deactivated student's identity account and profile
record, with nobody signed in. -/
def inactiveStudentWorld : World :=
  { idp := ⟨[("aluno@example.com", ⟨"u1", "secret1"⟩)], none⟩,
    users := [("u1", inactiveStudentDoc)],
    pendingActivations := [],
    session := ⟨none, none⟩ }

/-! ## Helper lemmas -/

/-- Draining the queue with no further arrivals invokes `_navigate` exactly
on the queued paths, in FIFO order. -/
theorem drainQuietList_eq_self (isAuth : Bool) (ut : Option String) :
    ∀ (q : List String) (cp : Option String), drainQuietList isAuth ut cp q = q
  | [], _ => rfl
  | _ :: rest, cp => by
    rw [drainQuietList, drainQuietList_eq_self isAuth ut rest]

/-! ## Claim theorems -/

/-- C1: for every path with a required role and every unauthenticated
session state, `_navigate` redirects to the login path and never reaches the
page-load phase. -/
theorem c1_protected_unauthenticated_redirects_to_login
    (p R : String) (ut cp : Option String)
    (hreq : getRequiredType (normalizePath p) = some R) :
    navDecision false ut cp p = .redirect "/login" ∧
    ∀ q, navDecision false ut cp p ≠ .load q := by
  unfold navDecision
  simp [hreq]

/-- Witness for C1 at the student dashboard. -/
theorem c1_witness :
    navDecision false none none "/student/dashboard" = .redirect "/login" :=
  (c1_protected_unauthenticated_redirects_to_login "/student/dashboard" "student"
    none none (by decide)).1

/-- C2: for every path requiring role `R` and an authenticated session whose
role `R'` is `personal` or `student` with `R' ≠ R`, `_navigate` redirects to
`R'`'s canonical dashboard and does not load the page, provided the target
is not already that dashboard. -/
theorem c2_role_mismatch_redirects_to_own_dashboard
    (p R R' : String) (cp : Option String)
    (hreq : getRequiredType (normalizePath p) = some R)
    (_hR' : R' = "personal" ∨ R' = "student")
    (hne : R' ≠ R)
    (hnd : normalizePath p ≠ dashboardFor (some R')) :
    navDecision true (some R') cp p = .redirect (dashboardFor (some R')) ∧
    ∀ q, navDecision true (some R') cp p ≠ .load q := by
  have hx : (some R' : Option String) ≠ some R := by simpa using hne
  unfold navDecision
  simp [hreq, hx, hnd]

/-- Witness for C2: a student navigating to a trainer-only page. -/
theorem c2_witness :
    navDecision true (some "student") none "/personal/exercises" =
      .redirect "/student/dashboard" :=
  (c2_role_mismatch_redirects_to_own_dashboard "/personal/exercises" "personal"
    "student" none (by decide) (Or.inr rfl) (by decide) (by decide)).1

/-- C3: on a public path, an authenticated session with a known role
(`personal` or `student`) is redirected to that role's canonical dashboard
(the public paths never coincide with a dashboard, stated here as the
hypothesis `hnd`), while an authenticated session whose role is still absent
(`null`) is not redirected and the public page is loaded. -/
theorem c3_public_path_known_role_redirects_absent_role_loads
    (p R : String) (cp : Option String)
    (hp : publicRoutes.contains (normalizePath p) = true)
    (hR : R = "personal" ∨ R = "student")
    (hnd : normalizePath p ≠ dashboardFor (some R))
    (hcp : cp ≠ some (normalizePath p)) :
    navDecision true (some R) cp p = .redirect (dashboardFor (some R)) ∧
    navDecision true none cp p = .load (normalizePath p) := by
  have hmem : normalizePath p ∈ publicRoutes := by simpa using hp
  have hmem4 : normalizePath p = "/login" ∨ normalizePath p = "/signup" ∨
      normalizePath p = "/" ∨ normalizePath p = "/primeiro-acesso" := by
    simpa [publicRoutes] using hmem
  have hreq : getRequiredType (normalizePath p) = none := by
    rcases hmem4 with h | h | h | h
    all_goals rw [h]
    all_goals decide
  have hRt : truthyType (some R) = true := by
    rcases hR with h | h
    all_goals rw [h]
    all_goals decide
  constructor
  · unfold navDecision publicThenLoad
    simp [hreq, hp, hmem, hRt, hnd]
  · unfold navDecision publicThenLoad loadOrStay
    simp [hreq, truthyType, hcp]

/-- Witness for C3: the signup page with a `personal` session and with a
role-less session. -/
theorem c3_witness :
    navDecision true (some "personal") none "/signup" =
      .redirect "/personal/dashboard" ∧
    navDecision true none none "/signup" = .load "/signup" :=
  c3_public_path_known_role_redirects_absent_role_loads "/signup" "personal" none
    (by decide) (Or.inl rfl) (by decide) (by decide)

/-- C9: route matching — an exact table entry wins with empty parameters;
`/personal/student/:id` matches `/personal/student/42` extracting
`id = "42"`, and does not match `/personal/student/42/extra`. -/
theorem c9_route_matching (p : String) :
    ((routes.lookup p).isSome → matchRoute p = some ⟨p, []⟩) ∧
    matchRoute "/personal/student/42" =
      some ⟨"/personal/student/:id", [("id", "42")]⟩ ∧
    matchRoute "/personal/student/42/extra" = none := by
  refine ⟨fun h => ?_, by decide, by decide⟩
  unfold matchRoute
  simp [h]

/-- Witness for C9 at the exact route `/login`. -/
theorem c9_witness : matchRoute "/login" = some ⟨"/login", []⟩ :=
  (c9_route_matching "/login").1 (by decide)

/-- C10 (implicit): an authenticated session with an absent role navigating
to `/student/dashboard` falls through both guards (the mismatch redirect
target equals the requested path) and loads the protected page. -/
theorem c10_absent_role_loads_student_dashboard (cp : Option String)
    (hcp : cp ≠ some "/student/dashboard") :
    navDecision true none cp "/student/dashboard" = .load "/student/dashboard" := by
  unfold navDecision publicThenLoad loadOrStay
  simp [show getRequiredType (normalizePath "/student/dashboard") = some "student" from by decide,
        show normalizePath "/student/dashboard" = "/student/dashboard" from by decide,
        dashboardFor, truthyType, hcp,
        show publicRoutes.contains "/student/dashboard" = false from by decide]
  decide

/-- Witness for C10 from a fresh router (`currentPath = null`). -/
theorem c10_witness :
    navDecision true none none "/student/dashboard" = .load "/student/dashboard" :=
  c10_absent_role_loads_student_dashboard none (by decide)

/-- C5: requests `['/a', '/a', '/b']` issued while a navigation (for any
path `p0`, in any session state) is in flight are de-duplicated and drained
in FIFO order, one at a time: the resulting executions after the in-flight
one are one of `['/a', '/b']`, `['/a']`, `['/b']` — `/a` at most once, `/b`
at most once, every `/a` before every `/b`. -/
theorem c5_inflight_requests_dedup_fifo (isAuth : Bool) (ut cp : Option String)
    (p0 : String) :
    ∃ q, navigateRun isAuth ut ⟨false, cp, []⟩ p0 [["/a", "/a", "/b"]] = p0 :: q ∧
      q.count "/a" ≤ 1 ∧ q.count "/b" ≤ 1 ∧
      (q = ["/a", "/b"] ∨ q = ["/a"] ∨ q = ["/b"]) := by
  by_cases h1 : cp = some "/a"
  · refine ⟨["/b"], ?_, by decide, by decide, by simp⟩
    subst h1
    simp [navigateRun, enqueueStep, drainWith, processOne, List.foldl,
      drainQuietList_eq_self]
  · by_cases h2 : cp = some "/b"
    · refine ⟨["/a"], ?_, by decide, by decide, by simp⟩
      subst h2
      simp [navigateRun, enqueueStep, drainWith, processOne, List.foldl,
        drainQuietList_eq_self]
    · refine ⟨["/a", "/b"], ?_, by decide, by decide, by simp⟩
      simp [navigateRun, enqueueStep, drainWith, processOne, List.foldl,
        drainQuietList_eq_self, h1, h2]

/-- C6 counterexample: a `navigate('/a')` call arriving while `/a` itself is
being processed (its page load still in flight, so `currentPath` is still
the previous value, here `null`) is NOT dropped: the run executes `/a`
twice.  The guard at router.js line 147 compares against `currentPath` — the
last *completed* path — not the path currently being processed. -/
theorem c6_counterexample_inflight_duplicate_not_dropped :
    navigateRun true (some "personal") ⟨false, none, []⟩ "/a" [["/a"]] =
      ["/a", "/a"] := by decide

/-- C6 amended: a `navigate(p)` call made while a navigation is in flight is
dropped — neither enqueued nor processed (the state is returned unchanged) —
exactly in the case that `currentPath` already equals `p`, i.e. when `p`'s
page load has already completed. -/
theorem c6_amended_duplicate_of_current_path_dropped (s : RState) (p : String)
    (h1 : s.isNavigating = true) (h2 : s.currentPath = some p) :
    enqueueStep s p = s := by
  unfold enqueueStep
  rw [if_pos ⟨h1, h2⟩]

/-- Witness for the amended C6: re-requesting the already-displayed path
during a navigation. -/
theorem c6_amended_witness :
    enqueueStep ⟨true, some "/a", []⟩ "/a" = ⟨true, some "/a", []⟩ :=
  c6_amended_duplicate_of_current_path_dropped ⟨true, some "/a", []⟩ "/a" rfl rfl

/-- C7: `login` against a student profile with status `inactive` fails with
the account-disabled error, leaves the local session fields cleared, and
leaves the identity provider signed out. -/
theorem c7_login_inactive_student_never_authenticated
    (w : World) (email password uid : String) (d : UserDoc)
    (hacct : w.idp.accounts.lookup email = some ⟨uid, password⟩)
    (hdoc : w.users.lookup uid = some d)
    (htype : d.userType = "student")
    (hstatus : d.status = "inactive")
    (hsess : w.session = ⟨none, none⟩) :
    (login w email password).2 =
      .fail "Sua conta foi desativada. Entre em contato com seu personal trainer." ∧
    (login w email password).1.session = ⟨none, none⟩ ∧
    (login w email password).1.idp.currentUid = none := by
  unfold login signIn signOutIdp
  rw [hacct]
  simp [hdoc, htype, hstatus, hsess]

/-- Witness for C7 on the deactivated-student world. -/
theorem c7_witness :
    (login inactiveStudentWorld "aluno@example.com" "secret1").2 =
      .fail "Sua conta foi desativada. Entre em contato com seu personal trainer." ∧
    (login inactiveStudentWorld "aluno@example.com" "secret1").1.session =
      ⟨none, none⟩ ∧
    (login inactiveStudentWorld "aluno@example.com" "secret1").1.idp.currentUid =
      none :=
  c7_login_inactive_student_never_authenticated inactiveStudentWorld
    "aluno@example.com" "secret1" "u1" inactiveStudentDoc
    (by decide) (by decide) rfl rfl rfl

/-- C8 counterexample: after a fully successful activation — whose final
step *deletes* the pending-activation index entry — `checkPendingStudent`
returns `noIndex`, not `alreadyActive` as the claim states. -/
theorem c8_counterexample_after_activation_noIndex :
    (activateStudentAccount worldAfterCreate "aluno@example.com" "secret1" "s1" "u1").2 =
      .ok "u1" ∧
    checkPendingStudent worldAfterActivate "aluno@example.com" = .noIndex ∧
    checkPendingStudent worldAfterActivate "aluno@example.com" ≠ .alreadyActive := by
  decide

/-- C8 amended: `checkPendingStudent` returns `noIndex` when no index entry
exists for the sanitized email key; `alreadyActive` when the index entry is
non-`pending`, or references a missing or non-`pending` record; otherwise
the provisional record id, the student's name and the owning trainer id.
After `createStudentAccount` it returns the pending data; after a fully
completed activation (which deletes the index entry) it returns `noIndex`. -/
theorem c8_check_pending_behaviour (w : World) (email : String) :
    (w.pendingActivations.lookup (emailKeyOf email) = none →
      checkPendingStudent w email = .noIndex) ∧
    (∀ idx, w.pendingActivations.lookup (emailKeyOf email) = some idx →
      idx.status ≠ "pending" → checkPendingStudent w email = .alreadyActive) ∧
    (∀ idx, w.pendingActivations.lookup (emailKeyOf email) = some idx →
      idx.status = "pending" → w.users.lookup idx.studentDocId = none →
      checkPendingStudent w email = .alreadyActive) ∧
    (∀ idx sd, w.pendingActivations.lookup (emailKeyOf email) = some idx →
      idx.status = "pending" → w.users.lookup idx.studentDocId = some sd →
      sd.status ≠ "pending" → checkPendingStudent w email = .alreadyActive) ∧
    (∀ idx sd, w.pendingActivations.lookup (emailKeyOf email) = some idx →
      idx.status = "pending" → w.users.lookup idx.studentDocId = some sd →
      sd.status = "pending" →
      checkPendingStudent w email =
        .pendingRes idx.studentDocId sd.name sd.personalId) ∧
    checkPendingStudent worldAfterCreate "aluno@example.com" =
      .pendingRes "s1" "Aluno" (some "p1") ∧
    checkPendingStudent worldAfterActivate "aluno@example.com" = .noIndex := by
  refine ⟨?_, ?_, ?_, ?_, ?_, by decide, by decide⟩
  · intro h
    unfold checkPendingStudent
    simp [h]
  · intro idx h hs
    unfold checkPendingStudent
    simp [h, hs]
  · intro idx h hs hu
    unfold checkPendingStudent
    simp [h, hs, hu]
  · intro idx sd h hs hu hss
    unfold checkPendingStudent
    simp [h, hs, hu, hss]
  · intro idx sd h hs hu hss
    unfold checkPendingStudent
    simp [h, hs, hu, hss]

/-- Witness for the amended C8: no index entry in the base world. -/
theorem c8_amended_witness :
    checkPendingStudent baseWorld "aluno@example.com" = CheckResult.noIndex :=
  (c8_check_pending_behaviour baseWorld "aluno@example.com").1 (by decide)

/-- C4 (code bug): the first `activateStudentAccount` call completes fully —
success, session adopted, exactly one remaining profile record for the email,
provisional record deleted — but the *second* call with the same arguments
fails: step 1 re-reads the provisional record `users/s1`, which step 5 of
the first call deleted, and throws before the status-`active` short-circuit
of step 3 can run.  This contradicts the function's own documentation
("Idempotente — pode ser chamado N vezes com segurança"). -/
theorem c4_second_activation_fails :
    (activateStudentAccount worldAfterCreate "aluno@example.com" "secret1" "s1" "u1").2 =
      .ok "u1" ∧
    worldAfterActivate.session = ⟨some "u1", some "student"⟩ ∧
    (worldAfterActivate.users.filter fun kv => kv.2.email = "aluno@example.com").length = 1 ∧
    worldAfterActivate.users.lookup "s1" = none ∧
    (activateStudentAccount worldAfterActivate "aluno@example.com" "secret1" "s1" "u2").2 =
      .fail "Dados do aluno não encontrados. Entre em contato com seu personal trainer." := by
  decide

end Featmy
